/-
Verification of the AirBnB_clone_v3 REST API view handlers.

This file is a shallow embedding of the Flask route handlers under
api/v1/views/ (places.py, places_reviews.py, places_amenities.py,
cities.py, states.py, users.py, amenities.py, index.py).

Modelling conventions:
- Entities (State, City, User, Amenity, Place, Review) are records carrying
  the fields the handlers read.  Identifiers are strings.
- Python dicts (JSON payloads, object attribute dictionaries, and the
  `{place.id: place for place in places}` deduplication dict) are modelled
  as association lists `List (String × α)` with Python dict semantics:
  insertion overwrites in place, a fresh key is appended at the end, and
  lookup returns the value of the unique occurrence of a key (`pyGet`
  returns the first occurrence, which agrees with dict semantics whenever
  keys are unique).
- `abort(code, msg)` is an early return modelled with `Except`:
  `HErr.http code msg`.  The unhandled Python `KeyError` raised by
  `review_data["state_id"]` on a missing key is modelled by the separate
  constructor `HErr.pyKeyError`.
- The storage collaborator (the `models` package) is not part of the
  repository sources here; it is modelled from the spec as typed
  collections keyed by identifier.
-/
import Mathlib

/-- A State entity: identifier (its cities are the City records whose
`state_id` points at it). -/
structure State where
  id : String
deriving DecidableEq, Repr

/-- A City entity: identifier and owning state identifier. -/
structure City where
  id : String
  state_id : String
deriving DecidableEq, Repr

/-- A User entity: identifier. -/
structure User where
  id : String
deriving DecidableEq, Repr

/-- An Amenity entity: identifier and name. -/
structure Amenity where
  id : String
  name : String
deriving DecidableEq, Repr

/-- A Place entity: identifier, owning city and user identifiers, name, and
the identifiers of its associated amenities (`place.amenities` in the
source yields amenity objects; the handlers only ever use their ids). -/
structure Place where
  id : String
  city_id : String
  user_id : String
  name : String
  amenity_ids : List String
deriving DecidableEq, Repr

/-- A Review entity: identifier, owning place and user identifiers, text. -/
structure Review where
  id : String
  place_id : String
  user_id : String
  text : String
deriving DecidableEq, Repr

/-- Modelled from the spec: the storage collaborator (`models.storage`,
outside the repository sources) keyed by entity type and identifier,
providing get/all/count per entity type. -/
structure Storage where
  states : List State
  cities : List City
  users : List User
  amenities : List Amenity
  places : List Place
  reviews : List Review
deriving DecidableEq, Repr

/-- First element of the list whose projection `f` equals `i` (the storage
dictionaries are keyed by identifier, so this is `storage.get`). -/
def firstBy {α : Type} (f : α → String) : List α → String → Option α
  | [], _ => none
  | a :: rest, i => if f a = i then some a else firstBy f rest i

/-- Modelled from the spec: `storage.get(State, id)`. -/
def Storage.getState (s : Storage) (i : String) : Option State :=
  firstBy State.id s.states i

/-- Modelled from the spec: `storage.get(City, id)`. -/
def Storage.getCity (s : Storage) (i : String) : Option City :=
  firstBy City.id s.cities i

/-- Modelled from the spec: `storage.get(User, id)`. -/
def Storage.getUser (s : Storage) (i : String) : Option User :=
  firstBy User.id s.users i

/-- Modelled from the spec: `storage.get(Amenity, id)`. -/
def Storage.getAmenity (s : Storage) (i : String) : Option Amenity :=
  firstBy Amenity.id s.amenities i

/-- Modelled from the spec: `storage.get(Place, id)`. -/
def Storage.getPlace (s : Storage) (i : String) : Option Place :=
  firstBy Place.id s.places i

/-- Modelled from the spec: the `state.cities` relationship — the cities
whose `state_id` is this state's identifier. -/
def State.cities (st : State) (s : Storage) : List City :=
  s.cities.filter (fun c => c.state_id = st.id)

/-- Modelled from the spec: the `city.places` relationship — the places
whose `city_id` is this city's identifier. -/
def City.places (c : City) (s : Storage) : List Place :=
  s.places.filter (fun p => p.city_id = c.id)

/-- `[place for city in cs for place in city.places]`. -/
def placesOfCities (s : Storage) : List City → List Place
  | [] => []
  | c :: rest => c.places s ++ placesOfCities s rest

/-- Outcome of an aborted handler: `HErr.http code msg` models
`abort(code)` / `abort(code, msg)`; `HErr.pyKeyError k` models an
unhandled Python `KeyError` on dictionary key `k`. -/
inductive HErr : Type where
  | http : Nat → Option String → HErr
  | pyKeyError : String → HErr
deriving DecidableEq, Repr

/-- Python dict lookup on an association list (first occurrence; dicts have
unique keys, where it matters uniqueness is a hypothesis). -/
def pyGet {α : Type} : List (String × α) → String → Option α
  | [], _ => none
  | kv :: rest, k => if kv.1 = k then some kv.2 else pyGet rest k

/-- Python dict insertion `m[k] = v`: overwrite in place if the key exists,
otherwise append at the end (insertion order is preserved). -/
def pyDictInsert {α : Type} (m : List (String × α)) (k : String) (v : α) :
    List (String × α) :=
  if m.any (fun kv => kv.1 = k) then
    m.map (fun kv => if kv.1 = k then (k, v) else kv)
  else m ++ [(k, v)]

/-- `get_places(id, cls)` from api/v1/views/places.py: resolve the object,
abort 404 when absent, and return the places of a state (through all its
cities) or of a city.  The source returns Python `None` for any other
`cls`; that branch is unreachable from `search_place` and is rendered as
the empty list. -/
def get_places (s : Storage) (i : String) (cls : String) :
    Except HErr (List Place) :=
  if cls = "State" then
    match s.getState i with
    | none => .error (.http 404 none)
    | some obj => .ok (placesOfCities s (obj.cities s))
  else if cls = "City" then
    match s.getCity i with
    | none => .error (.http 404 none)
    | some obj => .ok (obj.places s)
  else .ok []

/-- The loop `for id in data[key]: places.extend(get_places(id, cls))`,
aborting at the first unresolvable identifier. -/
def collectFrom (s : Storage) (cls : String) :
    List String → List Place → Except HErr (List Place)
  | [], acc => .ok acc
  | i :: rest, acc =>
    match get_places s i cls with
    | .error e => .error e
    | .ok ps => collectFrom s cls rest (acc ++ ps)

/-- The JSON body of a `places_search` request, restricted to the three
keys the handler reads.  `none` marks an absent key. -/
structure SearchBody where
  states : Option (List String)
  cities : Option (List String)
  amenities : Option (List String)
deriving DecidableEq, Repr

/-- Python `not data` on the body dict: true exactly when no key is
present. -/
def SearchBody.isEmptyDict (d : SearchBody) : Bool :=
  d.states.isNone && d.cities.isNone && d.amenities.isNone

/-- `if 'states' in data: for state_id in data['states']: ...` -/
def collectStates (s : Storage) (d : SearchBody) : Except HErr (List Place) :=
  match d.states with
  | none => .ok []
  | some l => collectFrom s "State" l []

/-- `if 'cities' in data: for city_id in data['cities']: ...` -/
def collectCities (s : Storage) (d : SearchBody) (acc : List Place) :
    Except HErr (List Place) :=
  match d.cities with
  | none => .ok acc
  | some l => collectFrom s "City" l acc

/-- `places = {place.id: place for place in places}.values()` — Python dict
comprehension: keys in first-occurrence order, each mapped to the last
place carrying that id. -/
def dedupById (ps : List Place) : List Place :=
  (ps.foldl (fun m p => pyDictInsert m p.id p) []).map Prod.snd

/-- The state/city collection phase of `search_place` (the `else` branch of
`if not data`), ending with the deduplication dict. -/
def collectPlaces (s : Storage) (d : SearchBody) : Except HErr (List Place) :=
  match collectStates s d with
  | .error e => .error e
  | .ok ps =>
    match collectCities s d ps with
    | .error e => .error e
    | .ok ps2 => .ok (dedupById ps2)

/-- `if not places: places = storage.all(Place).values()`. -/
def fallbackIfEmpty (s : Storage) (ps : List Place) : List Place :=
  if ps.isEmpty then s.places else ps

/-- `if 'amenities' in data and data['amenities']: places = [place for place
in places if set(data['amenities']).issubset({amenity.id for amenity in
place.amenities})]`. -/
def amenityFilter (d : SearchBody) (ps : List Place) : List Place :=
  match d.amenities with
  | none => ps
  | some ams =>
    if ams.isEmpty then ps
    else ps.filter (fun p => ams.all (fun a => a ∈ p.amenity_ids))

/-- `search_place()` (POST /places_search) from api/v1/views/places.py.
`data = none` models a body that fails to parse as JSON. -/
def search_place (s : Storage) (data : Option SearchBody) :
    Except HErr (List Place) :=
  match data with
  | none => .error (.http 400 (some "Not a JSON"))
  | some d =>
    if d.isEmptyDict then
      .ok (amenityFilter d (fallbackIfEmpty s s.places))
    else
      match collectPlaces s d with
      | .error e => .error e
      | .ok ps => .ok (amenityFilter d (fallbackIfEmpty s ps))

/-- `get_index()` (GET /stats) from api/v1/views/index.py, rendered as the
key/count pairs of the JSON object it builds.  The source's `"users"`
entry calls `storage.count(Amenity)`. -/
def get_index (s : Storage) : List (String × Nat) :=
  [("amenities", s.amenities.length),
   ("cities", s.cities.length),
   ("places", s.places.length),
   ("reviews", s.reviews.length),
   ("states", s.states.length),
   ("users", s.amenities.length)]

/-- A JSON payload or Python object attribute dictionary. -/
abbrev Payload := List (String × String)

/-- Python `setattr(obj, k, v)` on the object's attribute dictionary. -/
def setattr (o : Payload) (k v : String) : Payload :=
  pyDictInsert o k v

/-- The update loop shared by the city/place/review/user/amenity PUT
handlers: `for key, value in data.items(): if key not in ignore:
setattr(obj, key, value)`. -/
def update_obj (ignore : List String) (obj payload : Payload) : Payload :=
  payload.foldl (fun o kv => if kv.1 ∈ ignore then o else setattr o kv.1 kv.2) obj

/-- `update_user` attribute application (api/v1/views/users.py,
`ignore = ['id', 'email', 'created_at', 'updated_at']`). -/
def update_user_obj (obj payload : Payload) : Payload :=
  update_obj ["id", "email", "created_at", "updated_at"] obj payload

/-- `update_place` attribute application (api/v1/views/places.py,
`ignore = ['id', 'user_id', 'city_id', 'created_at', 'updated_at']`). -/
def update_place_obj (obj payload : Payload) : Payload :=
  update_obj ["id", "user_id", "city_id", "created_at", "updated_at"] obj payload

/-- `update_city` attribute application (api/v1/views/cities.py,
`ignore = ['id', 'state_id', 'created_at', 'updated_at']`). -/
def update_city_obj (obj payload : Payload) : Payload :=
  update_obj ["id", "state_id", "created_at", "updated_at"] obj payload

/-- `update_review` attribute application (api/v1/views/places_reviews.py,
`ignore = ['id', 'user_id', 'place_id', 'created_at', 'updated_at']`). -/
def update_review_obj (obj payload : Payload) : Payload :=
  update_obj ["id", "user_id", "place_id", "created_at", "updated_at"] obj payload

/-- `update_amenity` attribute application (api/v1/views/amenities.py,
`ignore = ['id', 'created_at', 'updated_at']`). -/
def update_amenity_obj (obj payload : Payload) : Payload :=
  update_obj ["id", "created_at", "updated_at"] obj payload

/-- `update_state` attribute application (api/v1/views/states.py): only
`if "name" in state_data: state.name = state_data['name']`. -/
def update_state_obj (obj payload : Payload) : Payload :=
  match pyGet payload "name" with
  | some v => setattr obj "name" v
  | none => obj

/-- `create_city(state_id)` (POST /states/<state_id>/cities) from
api/v1/views/cities.py; the created object is rendered by its attribute
dictionary (`City(**city_data)` then `city.state_id = state_id`). -/
def create_city (s : Storage) (state_id : String) (body : Option Payload) :
    Except HErr (Nat × Payload) :=
  if (s.getState state_id).isNone then .error (.http 404 none)
  else
    match body with
    | none => .error (.http 400 (some "Not a JSON"))
    | some data =>
      if (pyGet data "name").isNone then .error (.http 400 (some "Missing name"))
      else .ok (201, setattr data "state_id" state_id)

/-- `create_place(city_id)` (POST /cities/<city_id>/places) from
api/v1/views/places.py (`Place(**place_data)` then
`place.city_id = city_id`). -/
def create_place (s : Storage) (city_id : String) (body : Option Payload) :
    Except HErr (Nat × Payload) :=
  if (s.getCity city_id).isNone then .error (.http 404 none)
  else
    match body with
    | none => .error (.http 400 (some "Not a JSON"))
    | some data =>
      match pyGet data "user_id" with
      | none => .error (.http 400 (some "Missing user_id"))
      | some uid =>
        if (s.getUser uid).isNone then .error (.http 404 none)
        else if (pyGet data "name").isNone then
          .error (.http 400 (some "Missing name"))
        else .ok (201, setattr data "city_id" city_id)

/-- `create_review(place_id)` (POST /place/<place_id>/reviews) from
api/v1/views/places_reviews.py.  The source checks `"user_id" in
review_data` (aborting 400 with the literal message "uMissing user_id")
but then evaluates `review_data["state_id"]`, which raises an unhandled
`KeyError` when the key is absent; when present, its value is looked up
as a User identifier. -/
def create_review (s : Storage) (place_id : String) (body : Option Payload) :
    Except HErr (Nat × Payload) :=
  if (s.getPlace place_id).isNone then .error (.http 404 none)
  else
    match body with
    | none => .error (.http 400 (some "Not a JSON"))
    | some data =>
      if (pyGet data "user_id").isNone then
        .error (.http 400 (some "uMissing user_id"))
      else
        match pyGet data "state_id" with
        | none => .error (.pyKeyError "state_id")
        | some sid =>
          if (s.getUser sid).isNone then .error (.http 404 none)
          else if (pyGet data "text").isNone then
            .error (.http 400 (some "Missing text"))
          else .ok (201, setattr data "place_id" place_id)

/-- Replace the stored place carrying `p.id` by `p` (the Python handler
mutates the place object held by storage in place). -/
def Storage.setPlace (s : Storage) (p : Place) : Storage :=
  { s with places := s.places.map (fun q => if q.id = p.id then p else q) }

/-- `create_place_amenity(place_id, amenity_id)`
(POST /places/<place_id>/amenities/<amenity_id>) from
api/v1/views/places_amenities.py: 404 when place or amenity is absent;
200 with storage unchanged when already associated; otherwise append the
amenity and answer 201. -/
def create_place_amenity (s : Storage) (place_id amenity_id : String) :
    Except HErr (Nat × Storage) :=
  match s.getPlace place_id with
  | none => .error (.http 404 none)
  | some place =>
    match s.getAmenity amenity_id with
    | none => .error (.http 404 none)
    | some amenity =>
      if amenity.id ∈ place.amenity_ids then .ok (200, s)
      else
        .ok (201, s.setPlace
          { place with amenity_ids := place.amenity_ids ++ [amenity.id] })

/-! Concrete storage used by the witnesses: two states (st1 has no
cities), two cities in st2, one user, two amenities, two places. -/

def u1 : User := ⟨"u1"⟩

def st1 : State := ⟨"st1"⟩

def st2 : State := ⟨"st2"⟩

def c1 : City := ⟨"c1", "st2"⟩

def c2 : City := ⟨"c2", "st2"⟩

def a1 : Amenity := ⟨"a1", "wifi"⟩

def a2 : Amenity := ⟨"a2", "pool"⟩

def p1 : Place := ⟨"p1", "c1", "u1", "loft", ["a1", "a2"]⟩

def p2 : Place := ⟨"p2", "c2", "u1", "cabin", ["a1"]⟩

def sDemo : Storage := ⟨[st1, st2], [c1, c2], [u1], [a1, a2], [p1, p2], []⟩

/-! Lemmas about the Python dict model. -/

theorem pyGet_map_overwrite {α : Type} (m : List (String × α)) (k : String)
    (v : α) :
    pyGet (m.map (fun kv => if kv.1 = k then (k, v) else kv)) k =
      if m.any (fun kv => kv.1 = k) then some v else none := by
  induction m with
  | nil => simp [pyGet]
  | cons kv rest ih =>
    by_cases h : kv.1 = k
    · simp [pyGet, h]
    · by_cases h2 : rest.any (fun kv => kv.1 = k)
      · simp [pyGet, h, h2, ih]
      · simp [pyGet, h, h2, ih]

theorem pyGet_append_new {α : Type} (m : List (String × α)) (k : String)
    (v : α) (h : m.any (fun kv => kv.1 = k) = false) :
    pyGet (m ++ [(k, v)]) k = some v := by
  induction m with
  | nil => simp [pyGet]
  | cons kv rest ih =>
    simp only [List.any_cons, Bool.or_eq_false_iff] at h
    have h1 : kv.1 ≠ k := by
      intro hk
      simp [hk] at h
    simp [pyGet, h1, ih h.2]

theorem pyGet_pyDictInsert_self {α : Type} (m : List (String × α))
    (k : String) (v : α) :
    pyGet (pyDictInsert m k v) k = some v := by
  unfold pyDictInsert
  by_cases h : m.any (fun kv => kv.1 = k)
  · simp [h, pyGet_map_overwrite, h]
  · simp only [h]
    rw [if_neg (by simp [h])]
    exact pyGet_append_new m k v (by simp [h])

theorem pyGet_map_overwrite_other {α : Type} (m : List (String × α))
    (k k' : String) (v : α) (h : k' ≠ k) :
    pyGet (m.map (fun kv => if kv.1 = k then (k, v) else kv)) k' =
      pyGet m k' := by
  induction m with
  | nil => simp [pyGet]
  | cons kv rest ih =>
    by_cases hk : kv.1 = k
    · have hne : kv.1 ≠ k' := by rw [hk]; exact fun hx => h hx.symm
      simp [pyGet, hk, Ne.symm h, hne, ih]
    · by_cases hk' : kv.1 = k'
      · simp [pyGet, hk, hk', h]
      · simp [pyGet, hk, hk', ih]

theorem pyGet_append_other {α : Type} (m : List (String × α))
    (k k' : String) (v : α) (h : k' ≠ k) :
    pyGet (m ++ [(k, v)]) k' = pyGet m k' := by
  induction m with
  | nil => simp [pyGet, Ne.symm h]
  | cons kv rest ih =>
    by_cases hk' : kv.1 = k'
    · simp [pyGet, hk']
    · simp [pyGet, hk', ih]

theorem pyGet_pyDictInsert_other {α : Type} (m : List (String × α))
    (k k' : String) (v : α) (h : k' ≠ k) :
    pyGet (pyDictInsert m k v) k' = pyGet m k' := by
  unfold pyDictInsert
  split
  · exact pyGet_map_overwrite_other m k k' v h
  · exact pyGet_append_other m k k' v h

theorem pyGet_setattr_self (o : Payload) (k v : String) :
    pyGet (setattr o k v) k = some v :=
  pyGet_pyDictInsert_self o k v

theorem pyGet_setattr_other (o : Payload) (k v k' : String) (h : k' ≠ k) :
    pyGet (setattr o k v) k' = pyGet o k' :=
  pyGet_pyDictInsert_other o k k' v h

/-! Lemmas about the shared update loop. -/

theorem update_obj_cons (ignore : List String) (obj : Payload)
    (kv : String × String) (rest : Payload) :
    update_obj ignore obj (kv :: rest) =
      update_obj ignore (if kv.1 ∈ ignore then obj else setattr obj kv.1 kv.2)
        rest := rfl

theorem pyGet_update_obj_ignored (ignore : List String) (obj payload : Payload)
    (k : String) (hk : k ∈ ignore) :
    pyGet (update_obj ignore obj payload) k = pyGet obj k := by
  induction payload generalizing obj with
  | nil => rfl
  | cons kv rest ih =>
    rw [update_obj_cons]
    by_cases h : kv.1 ∈ ignore
    · rw [if_pos h]
      exact ih obj
    · rw [if_neg h, ih (setattr obj kv.1 kv.2)]
      exact pyGet_setattr_other obj kv.1 kv.2 k (fun he => h (he ▸ hk))

theorem pyGet_update_obj_absent (ignore : List String) (obj payload : Payload)
    (k : String) (hk : k ∉ payload.map Prod.fst) :
    pyGet (update_obj ignore obj payload) k = pyGet obj k := by
  induction payload generalizing obj with
  | nil => rfl
  | cons kv rest ih =>
    simp only [List.map_cons, List.mem_cons, not_or] at hk
    rw [update_obj_cons]
    by_cases h : kv.1 ∈ ignore
    · rw [if_pos h]
      exact ih obj hk.2
    · rw [if_neg h, ih (setattr obj kv.1 kv.2) hk.2]
      exact pyGet_setattr_other obj kv.1 kv.2 k (fun he => hk.1 he)

theorem pyGet_update_obj_applied (ignore : List String) (obj payload : Payload)
    (k v : String) (hnd : (payload.map Prod.fst).Nodup) (hki : k ∉ ignore)
    (hkv : (k, v) ∈ payload) :
    pyGet (update_obj ignore obj payload) k = some v := by
  induction payload generalizing obj with
  | nil => cases hkv
  | cons kv rest ih =>
    simp only [List.map_cons, List.nodup_cons] at hnd
    rw [update_obj_cons]
    rcases List.mem_cons.mp hkv with heq | hmem
    · have hk1 : kv.1 = k := by rw [← heq]
      have habs : k ∉ rest.map Prod.fst := hk1 ▸ hnd.1
      rw [if_neg (hk1 ▸ hki)]
      rw [pyGet_update_obj_absent ignore (setattr obj kv.1 kv.2) rest k habs]
      rw [← heq]
      exact pyGet_setattr_self obj k v
    · by_cases h : kv.1 ∈ ignore
      · rw [if_pos h]
        exact ih obj hnd.2 hmem
      · rw [if_neg h]
        exact ih (setattr obj kv.1 kv.2) hnd.2 hmem

/-! Lemmas about the deduplication dict. -/

theorem pyDictInsert_keys {α : Type} (m : List (String × α)) (k : String)
    (v : α) :
    (pyDictInsert m k v).map Prod.fst =
      if m.any (fun kv => kv.1 = k) then m.map Prod.fst
      else m.map Prod.fst ++ [k] := by
  unfold pyDictInsert
  split
  · rw [List.map_map]
    apply List.map_congr_left
    intro kv _
    by_cases hk : kv.1 = k
    · simp [hk]
    · simp [hk]
  · simp

theorem mem_keys_iff_any {α : Type} (m : List (String × α)) (k : String) :
    (m.any (fun kv => kv.1 = k)) = true ↔ k ∈ m.map Prod.fst := by
  simp only [List.any_eq_true, List.mem_map, decide_eq_true_eq]

theorem pyDictInsert_keys_nodup {α : Type} (m : List (String × α))
    (k : String) (v : α) (h : (m.map Prod.fst).Nodup) :
    ((pyDictInsert m k v).map Prod.fst).Nodup := by
  rw [pyDictInsert_keys]
  split
  · exact h
  · rename_i hany
    have hk : k ∉ m.map Prod.fst := by
      rw [← mem_keys_iff_any]
      simp [hany]
    simp [List.nodup_append, h, hk]

theorem pyDictInsert_vals_id (m : List (String × Place)) (p : Place)
    (h : ∀ kv ∈ m, (kv.2).id = kv.1) :
    ∀ kv ∈ pyDictInsert m p.id p, (kv.2).id = kv.1 := by
  unfold pyDictInsert
  split
  · intro kv hkv
    rcases List.mem_map.mp hkv with ⟨kv0, hm, hmap⟩
    by_cases hk : kv0.1 = p.id
    · rw [← hmap, if_pos hk]
    · rw [← hmap, if_neg hk]
      exact h kv0 hm
  · intro kv hkv
    rcases List.mem_append.mp hkv with hm | hm
    · exact h kv hm
    · rcases List.mem_singleton.mp hm with heq
      rw [heq]

theorem dedup_fold_wf (l : List Place) (m : List (String × Place))
    (h1 : (m.map Prod.fst).Nodup) (h2 : ∀ kv ∈ m, (kv.2).id = kv.1) :
    ((l.foldl (fun m p => pyDictInsert m p.id p) m).map Prod.fst).Nodup ∧
      ∀ kv ∈ l.foldl (fun m p => pyDictInsert m p.id p) m, (kv.2).id = kv.1 := by
  induction l generalizing m with
  | nil => exact ⟨h1, h2⟩
  | cons p rest ih =>
    simp only [List.foldl_cons]
    exact ih (pyDictInsert m p.id p) (pyDictInsert_keys_nodup m p.id p h1)
      (pyDictInsert_vals_id m p h2)

theorem dedupById_nodup (l : List Place) :
    ((dedupById l).map Place.id).Nodup := by
  have h := dedup_fold_wf l [] (by simp) (by simp)
  unfold dedupById
  rw [List.map_map]
  have heq : (l.foldl (fun m p => pyDictInsert m p.id p) []).map
      (Place.id ∘ Prod.snd) =
      (l.foldl (fun m p => pyDictInsert m p.id p) []).map Prod.fst := by
    apply List.map_congr_left
    intro kv hkv
    exact h.2 kv hkv
  rw [heq]
  exact h.1

/-! Lemmas about the search pipeline. -/

theorem amenityFilter_sublist (d : SearchBody) (ps : List Place) :
    (amenityFilter d ps).Sublist ps := by
  unfold amenityFilter
  cases d.amenities with
  | none => exact List.Sublist.refl ps
  | some ams =>
    dsimp only
    by_cases he : ams.isEmpty
    · rw [if_pos he]
    · rw [if_neg he]
      exact List.filter_sublist ps

theorem collectPlaces_ok_nodup (s : Storage) (d : SearchBody) (ps : List Place)
    (h : collectPlaces s d = .ok ps) : (ps.map Place.id).Nodup := by
  unfold collectPlaces at h
  cases h1 : collectStates s d with
  | error e => rw [h1] at h; simp at h
  | ok l =>
    rw [h1] at h
    dsimp only at h
    cases h2 : collectCities s d l with
    | error e => rw [h2] at h; simp at h
    | ok l2 =>
      rw [h2] at h
      injection h with h
      rw [← h]
      exact dedupById_nodup l2

theorem fallbackIfEmpty_self (s : Storage) :
    fallbackIfEmpty s s.places = s.places := by
  unfold fallbackIfEmpty
  split <;> rfl

theorem fallbackIfEmpty_nodup (s : Storage) (ps : List Place)
    (hWF : (s.places.map Place.id).Nodup)
    (hps : (ps.map Place.id).Nodup) :
    ((fallbackIfEmpty s ps).map Place.id).Nodup := by
  unfold fallbackIfEmpty
  split
  · exact hWF
  · exact hps

theorem get_places_error_shape (s : Storage) (i cls : String) (e : HErr)
    (h : get_places s i cls = .error e) : e = .http 404 none := by
  unfold get_places at h
  split at h
  · cases hg : s.getState i with
    | none => rw [hg] at h; injection h with h; exact h.symm
    | some o => rw [hg] at h; simp at h
  · split at h
    · cases hg : s.getCity i with
      | none => rw [hg] at h; injection h with h; exact h.symm
      | some o => rw [hg] at h; simp at h
    · simp at h

theorem collectFrom_error_shape (s : Storage) (cls : String) (l : List String)
    (acc : List Place) (e : HErr) (h : collectFrom s cls l acc = .error e) :
    e = .http 404 none := by
  induction l generalizing acc with
  | nil => simp [collectFrom] at h
  | cons i rest ih =>
    unfold collectFrom at h
    cases hg : get_places s i cls with
    | error e2 =>
      rw [hg] at h
      injection h with h
      exact h ▸ get_places_error_shape s i cls e2 hg
    | ok ps =>
      rw [hg] at h
      exact ih (acc ++ ps) h

theorem collectFrom_state_fail (s : Storage) (l : List String)
    (i : String) (hi : i ∈ l) (hnone : s.getState i = none) (acc : List Place) :
    collectFrom s "State" l acc = .error (.http 404 none) := by
  induction l generalizing acc with
  | nil => cases hi
  | cons j rest ih =>
    unfold collectFrom
    cases hj : s.getState j with
    | none =>
      have hgp : get_places s j "State" = .error (.http 404 none) := by
        simp [get_places, hj]
      rw [hgp]
    | some o =>
      have hgp : get_places s j "State" = .ok (placesOfCities s (o.cities s)) := by
        simp [get_places, hj]
      rw [hgp]
      rcases List.mem_cons.mp hi with heq | hmem
      · rw [heq] at hnone
        rw [hnone] at hj
        cases hj
      · exact ih hmem _

theorem collectFrom_city_fail (s : Storage) (l : List String)
    (i : String) (hi : i ∈ l) (hnone : s.getCity i = none) (acc : List Place) :
    collectFrom s "City" l acc = .error (.http 404 none) := by
  induction l generalizing acc with
  | nil => cases hi
  | cons j rest ih =>
    unfold collectFrom
    cases hj : s.getCity j with
    | none =>
      have hgp : get_places s j "City" = .error (.http 404 none) := by
        simp [get_places, hj]
      rw [hgp]
    | some o =>
      have hgp : get_places s j "City" = .ok (o.places s) := by
        simp [get_places, hj]
      rw [hgp]
      rcases List.mem_cons.mp hi with heq | hmem
      · rw [heq] at hnone
        rw [hnone] at hj
        cases hj
      · exact ih hmem _

/-- C1: For every places_search request whose JSON body contains non-empty
`states` and/or `cities` lists, if the deduplicated union of places
collected from those states and cities is empty, the candidate set falls
back to the set of all places known to the system, and any amenity filter
is then applied to that full set. -/
theorem C1_search_fallback_on_empty_union (s : Storage) (d : SearchBody)
    (hne : (∃ l, d.states = some l ∧ l ≠ []) ∨
           (∃ l, d.cities = some l ∧ l ≠ []))
    (hcol : collectPlaces s d = .ok []) :
    search_place s (some d) = .ok (amenityFilter d s.places) := by
  have hed : d.isEmptyDict = false := by
    rcases hne with ⟨l, hl, _⟩ | ⟨l, hl, _⟩ <;>
      simp [SearchBody.isEmptyDict, hl]
  unfold search_place
  dsimp only
  rw [hed]
  simp only [Bool.false_eq_true, if_false]
  rw [hcol]
  rfl

/-- C1 witness: a request listing only state "st1" (which exists but has no
cities) collects the empty union, and the result is the amenity filter
applied to every place in storage. -/
theorem C1_witness :
    ((∃ l, (SearchBody.mk (some ["st1"]) none (some ["a1"])).states = some l ∧
        l ≠ []) ∨
     (∃ l, (SearchBody.mk (some ["st1"]) none (some ["a1"])).cities = some l ∧
        l ≠ [])) ∧
    collectPlaces sDemo (SearchBody.mk (some ["st1"]) none (some ["a1"])) =
      .ok [] ∧
    search_place sDemo (some (SearchBody.mk (some ["st1"]) none (some ["a1"]))) =
      .ok (amenityFilter (SearchBody.mk (some ["st1"]) none (some ["a1"]))
        sDemo.places) :=
  ⟨Or.inl ⟨["st1"], rfl, by decide⟩, by rfl,
   C1_search_fallback_on_empty_union sDemo
     (SearchBody.mk (some ["st1"]) none (some ["a1"]))
     (Or.inl ⟨["st1"], rfl, by decide⟩) (by rfl)⟩

/-- C2: For every places_search request whose JSON body contains a non-empty
`amenities` list, the returned sequence contains exactly those candidate
places (the state/city union after the empty-union fallback) whose set of
associated amenity identifiers is a superset of the requested
amenity-identifier set — AND semantics. -/
theorem C2_search_amenity_superset (s : Storage) (d : SearchBody)
    (ams : List String) (cand res : List Place) (p : Place)
    (hams : d.amenities = some ams) (hamsne : ams ≠ [])
    (hc : collectPlaces s d = .ok cand)
    (hr : search_place s (some d) = .ok res) :
    p ∈ res ↔ p ∈ fallbackIfEmpty s cand ∧ ∀ a ∈ ams, a ∈ p.amenity_ids := by
  have hed : d.isEmptyDict = false := by
    simp [SearchBody.isEmptyDict, hams]
  unfold search_place at hr
  dsimp only at hr
  rw [hed] at hr
  simp only [Bool.false_eq_true, if_false] at hr
  rw [hc] at hr
  dsimp only at hr
  injection hr with hr
  rw [← hr]
  unfold amenityFilter
  rw [hams]
  dsimp only
  have hie : ams.isEmpty = false := by
    cases ams with
    | nil => cases hamsne rfl
    | cons a rest => rfl
  rw [hie]
  simp only [Bool.false_eq_true, if_false]
  simp [List.mem_filter, List.all_eq_true]

/-- C2 witness: searching with amenities ["a1", "a2"] and no state/city
filter returns exactly [p1]; p1 carries both amenities. -/
theorem C2_witness :
    (SearchBody.mk none none (some ["a1", "a2"])).amenities =
      some ["a1", "a2"] ∧
    collectPlaces sDemo (SearchBody.mk none none (some ["a1", "a2"])) =
      .ok [] ∧
    search_place sDemo (some (SearchBody.mk none none (some ["a1", "a2"]))) =
      .ok [p1] ∧
    p1 ∈ ([p1] : List Place) :=
  ⟨rfl, by rfl, by rfl,
   (C2_search_amenity_superset sDemo (SearchBody.mk none none
       (some ["a1", "a2"])) ["a1", "a2"] [] [p1] p1 rfl (by decide)
     (by rfl) (by rfl)).mpr ⟨by decide, by decide⟩⟩

/-- C3: For every places_search request with any valid combination of
`states` and `cities` filters, a successful result contains no two places
with the same place identifier. -/
theorem C3_search_result_nodup (s : Storage) (d : SearchBody)
    (res : List Place)
    (hWF : (s.places.map Place.id).Nodup)
    (h : search_place s (some d) = .ok res) :
    (res.map Place.id).Nodup := by
  unfold search_place at h
  dsimp only at h
  by_cases hed : d.isEmptyDict
  · rw [if_pos hed] at h
    injection h with h
    rw [← h, fallbackIfEmpty_self]
    exact List.Nodup.sublist ((amenityFilter_sublist d s.places).map Place.id)
      hWF
  · rw [if_neg hed] at h
    cases hc : collectPlaces s d with
    | error e => rw [hc] at h; simp at h
    | ok ps =>
      rw [hc] at h
      dsimp only at h
      injection h with h
      rw [← h]
      exact List.Nodup.sublist
        ((amenityFilter_sublist d (fallbackIfEmpty s ps)).map Place.id)
        (fallbackIfEmpty_nodup s ps hWF (collectPlaces_ok_nodup s d ps hc))

/-- C3 witness: place p1 is reachable both through state "st2" and through
city "c1", yet the result lists it once. -/
theorem C3_witness :
    (sDemo.places.map Place.id).Nodup ∧
    search_place sDemo
      (some (SearchBody.mk (some ["st2"]) (some ["c1"]) none)) =
      .ok [p1, p2] ∧
    (([p1, p2] : List Place).map Place.id).Nodup :=
  ⟨by decide, by rfl,
   C3_search_result_nodup sDemo (SearchBody.mk (some ["st2"]) (some ["c1"]) none)
     [p1, p2] (by decide) (by rfl)⟩

/-- C4: For every places_search request whose JSON body lists at least one
state or city identifier that does not resolve, the operation fails with
NotFound (HTTP 404) and returns no result sequence. -/
theorem C4_search_unresolved_404 (s : Storage) (d : SearchBody)
    (h : (∃ l, d.states = some l ∧ ∃ i ∈ l, s.getState i = none) ∨
         (∃ l, d.cities = some l ∧ ∃ i ∈ l, s.getCity i = none)) :
    search_place s (some d) = .error (.http 404 none) := by
  have hed : d.isEmptyDict = false := by
    rcases h with ⟨l, hl, _⟩ | ⟨l, hl, _⟩ <;>
      simp [SearchBody.isEmptyDict, hl]
  have hcp : collectPlaces s d = .error (.http 404 none) := by
    rcases h with ⟨l, hl, i, hi, hnone⟩ | ⟨l, hl, i, hi, hnone⟩
    · have hcs : collectStates s d = .error (.http 404 none) := by
        unfold collectStates
        rw [hl]
        exact collectFrom_state_fail s l i hi hnone []
      unfold collectPlaces
      rw [hcs]
    · cases hs : collectStates s d with
      | error e =>
        have he : e = .http 404 none := by
          unfold collectStates at hs
          cases hds : d.states with
          | none => rw [hds] at hs; simp at hs
          | some l2 =>
            rw [hds] at hs
            exact collectFrom_error_shape s "State" l2 [] e hs
        unfold collectPlaces
        rw [hs, he]
      | ok ps =>
        have hcc : collectCities s d ps = .error (.http 404 none) := by
          unfold collectCities
          rw [hl]
          exact collectFrom_city_fail s l i hi hnone ps
        unfold collectPlaces
        rw [hs]
        dsimp only
        rw [hcc]
  unfold search_place
  dsimp only
  rw [hed]
  simp only [Bool.false_eq_true, if_false]
  rw [hcp]

/-- C4 witness: "ghost" names no state, so the search aborts with 404. -/
theorem C4_witness :
    sDemo.getState "ghost" = none ∧
    search_place sDemo (some (SearchBody.mk (some ["ghost"]) none none)) =
      .error (.http 404 none) :=
  ⟨by rfl,
   C4_search_unresolved_404 sDemo (SearchBody.mk (some ["ghost"]) none none)
     (Or.inl ⟨["ghost"], rfl, "ghost", by decide, by rfl⟩)⟩

/-- C5 (code bug): GET /stats is specified to report each entity type's own
storage count, but the handler's "users" field calls
`storage.count(Amenity)`: on sDemo (1 user, 2 amenities) the "users"
field is 2, not the user count 1. -/
theorem C5_get_index_users_counts_amenities :
    pyGet (get_index sDemo) "users" = some 2 ∧
    sDemo.users.length = 1 ∧
    sDemo.amenities.length = 2 ∧
    pyGet (get_index sDemo) "users" ≠ some sDemo.users.length := by
  refine ⟨by rfl, by rfl, by rfl, ?_⟩
  intro h
  simp [get_index, pyGet, sDemo] at h

/-- C6 counterexample: the claim says every payload key outside
{id, created_at, updated_at, type-specific foreign keys} takes effect on
update.  For a State update the key "rank" (not in that set) is dropped
entirely, and for a User update the key "email" (not a foreign key) is
ignored. -/
theorem C6_counterexample :
    ("rank" ∉ (["id", "created_at", "updated_at"] : List String)) ∧
    update_state_obj [("id", "s1"), ("name", "California")] [("rank", "1")] =
      [("id", "s1"), ("name", "California")] ∧
    pyGet (update_state_obj [("id", "s1"), ("name", "California")]
      [("rank", "1")]) "rank" = none ∧
    ("email" ∉ (["id", "created_at", "updated_at"] : List String)) ∧
    pyGet (update_user_obj [("id", "u1"), ("email", "old@x.io")]
      [("email", "new@x.io")]) "email" = some "old@x.io" := by
  refine ⟨by decide, by rfl, by rfl, by decide, by rfl⟩

/-- C6 (amended): each PUT handler applies payload keys outside its own
fixed ignore list — City {id, state_id, created_at, updated_at}, Place
{id, user_id, city_id, created_at, updated_at}, Review {id, user_id,
place_id, created_at, updated_at}, Amenity {id, created_at, updated_at},
User {id, email, created_at, updated_at} (email is ignored although it is
not a foreign key) — while the State handler applies only the `name` key
and ignores every other key; in all six cases the entity's identifier is
unchanged even when `id` appears in the payload. -/
theorem C6_update_semantics (obj payload : Payload) (k v : String) :
    (pyGet (update_city_obj obj payload) "id" = pyGet obj "id" ∧
     pyGet (update_place_obj obj payload) "id" = pyGet obj "id" ∧
     pyGet (update_review_obj obj payload) "id" = pyGet obj "id" ∧
     pyGet (update_amenity_obj obj payload) "id" = pyGet obj "id" ∧
     pyGet (update_user_obj obj payload) "id" = pyGet obj "id" ∧
     pyGet (update_state_obj obj payload) "id" = pyGet obj "id") ∧
    ((payload.map Prod.fst).Nodup → (k, v) ∈ payload →
      (k ∉ (["id", "state_id", "created_at", "updated_at"] : List String) →
        pyGet (update_city_obj obj payload) k = some v) ∧
      (k ∉ (["id", "user_id", "city_id", "created_at", "updated_at"] :
          List String) →
        pyGet (update_place_obj obj payload) k = some v) ∧
      (k ∉ (["id", "user_id", "place_id", "created_at", "updated_at"] :
          List String) →
        pyGet (update_review_obj obj payload) k = some v) ∧
      (k ∉ (["id", "created_at", "updated_at"] : List String) →
        pyGet (update_amenity_obj obj payload) k = some v) ∧
      (k ∉ (["id", "email", "created_at", "updated_at"] : List String) →
        pyGet (update_user_obj obj payload) k = some v)) ∧
    (pyGet payload "name" = some v →
      pyGet (update_state_obj obj payload) "name" = some v) ∧
    (k ≠ "name" → pyGet (update_state_obj obj payload) k = pyGet obj k) := by
  refine ⟨⟨?_, ?_, ?_, ?_, ?_, ?_⟩, ?_, ?_, ?_⟩
  · exact pyGet_update_obj_ignored _ obj payload "id" (by simp)
  · exact pyGet_update_obj_ignored _ obj payload "id" (by simp)
  · exact pyGet_update_obj_ignored _ obj payload "id" (by simp)
  · exact pyGet_update_obj_ignored _ obj payload "id" (by simp)
  · exact pyGet_update_obj_ignored _ obj payload "id" (by simp)
  · unfold update_state_obj
    cases h : pyGet payload "name" with
    | none => rfl
    | some w => exact pyGet_setattr_other obj "name" w "id" (by decide)
  · intro hnd hkv
    exact ⟨fun hk => pyGet_update_obj_applied _ obj payload k v hnd hk hkv,
      fun hk => pyGet_update_obj_applied _ obj payload k v hnd hk hkv,
      fun hk => pyGet_update_obj_applied _ obj payload k v hnd hk hkv,
      fun hk => pyGet_update_obj_applied _ obj payload k v hnd hk hkv,
      fun hk => pyGet_update_obj_applied _ obj payload k v hnd hk hkv⟩
  · intro h
    unfold update_state_obj
    rw [h]
    exact pyGet_setattr_self obj "name" v
  · intro hk
    unfold update_state_obj
    cases h : pyGet payload "name" with
    | none => rfl
    | some w => exact pyGet_setattr_other obj "name" w k hk

/-- C6 witness: a City update with `id` and `name` in the payload keeps the
identifier "c9" and applies the new name. -/
theorem C6_witness :
    pyGet (update_city_obj [("id", "c9"), ("name", "x")]
      [("id", "zzz"), ("name", "y")]) "id" = some "c9" ∧
    pyGet (update_city_obj [("id", "c9"), ("name", "x")]
      [("id", "zzz"), ("name", "y")]) "name" = some "y" :=
  ⟨((C6_update_semantics [("id", "c9"), ("name", "x")]
      [("id", "zzz"), ("name", "y")] "name" "y").1.1).trans (by rfl),
   ((C6_update_semantics [("id", "c9"), ("name", "x")]
      [("id", "zzz"), ("name", "y")] "name" "y").2.1 (by decide)
     (by decide)).1 (by decide)⟩

/-- C7: creating a place in an existing city with a valid JSON body checks
`user_id` presence (400 "Missing user_id") and then resolves the user
(404) before the `name`-presence check — so a body missing both `user_id`
and `name` yields the `user_id` error, and an unresolvable `user_id`
yields 404 even when `name` is absent. -/
theorem C7_create_place_user_checks (s : Storage) (cid : String)
    (data : Payload) (hcity : (s.getCity cid).isSome = true) :
    (pyGet data "user_id" = none →
      create_place s cid (some data) =
        .error (.http 400 (some "Missing user_id"))) ∧
    (∀ uid, pyGet data "user_id" = some uid → s.getUser uid = none →
      create_place s cid (some data) = .error (.http 404 none)) := by
  cases hc : s.getCity cid with
  | none => rw [hc] at hcity; simp at hcity
  | some c =>
    constructor
    · intro hu
      simp only [create_place, hc, Option.isNone_some, Bool.false_eq_true,
        if_false, hu]
    · intro uid hu hnone
      simp only [create_place, hc, Option.isNone_some, Bool.false_eq_true,
        if_false, hu, hnone, Option.isNone_none, if_true]

/-- C7 witness: in sDemo, city "c1" exists; a body without `user_id` gives
400 "Missing user_id" (even though `name` is also absent in the second
body) and a body whose `user_id` resolves to no user gives 404. -/
theorem C7_witness :
    (sDemo.getCity "c1").isSome = true ∧
    create_place sDemo "c1" (some [("name", "x")]) =
      .error (.http 400 (some "Missing user_id")) ∧
    create_place sDemo "c1" (some [("user_id", "ghost")]) =
      .error (.http 404 none) :=
  ⟨by rfl,
   (C7_create_place_user_checks sDemo "c1" [("name", "x")] (by rfl)).1
     (by rfl),
   (C7_create_place_user_checks sDemo "c1" [("user_id", "ghost")]
     (by rfl)).2 "ghost" (by rfl) (by rfl)⟩

/-! Helper lemmas for the place-amenity association. -/

theorem firstBy_some_eq {α : Type} (f : α → String) (l : List α) (i : String)
    (a : α) (h : firstBy f l i = some a) : f a = i := by
  induction l with
  | nil => simp [firstBy] at h
  | cons b rest ih =>
    unfold firstBy at h
    split at h
    · injection h with h
      rename_i hb
      rw [← h]
      exact hb
    · exact ih h

theorem firstBy_map_replace (l : List Place) (pid : String) (p p' : Place)
    (h : firstBy Place.id l pid = some p) (hid : p'.id = pid) :
    firstBy Place.id (l.map (fun q => if q.id = p'.id then p' else q)) pid =
      some p' := by
  induction l with
  | nil => simp [firstBy] at h
  | cons b rest ih =>
    by_cases hb : b.id = pid
    · have hbp : b.id = p'.id := by rw [hb, hid]
      simp only [List.map_cons, if_pos hbp]
      unfold firstBy
      rw [if_pos hid]
    · unfold firstBy at h
      rw [if_neg hb] at h
      have hbp : ¬b.id = p'.id := by rw [hid]; exact hb
      simp only [List.map_cons, if_neg hbp]
      unfold firstBy
      rw [if_neg hb]
      exact ih h

theorem create_place_amenity_assoc (s : Storage) (pid aid : String)
    (p : Place) (a : Amenity) (hp : s.getPlace pid = some p)
    (ha : s.getAmenity aid = some a) (hmem : a.id ∈ p.amenity_ids) :
    create_place_amenity s pid aid = .ok (200, s) := by
  unfold create_place_amenity
  rw [hp]
  dsimp only
  rw [ha]
  dsimp only
  rw [if_pos hmem]

/-- C8: POST /places/<place_id>/amenities/<amenity_id> is idempotent: when
the amenity is already associated, the handler returns 200 with storage
unchanged (201 arises only on first creation), and a second association
performed after any successful association returns 200 and leaves the
storage exactly as after the first. -/
theorem C8_place_amenity_idempotent :
    (∀ s pid aid p a, s.getPlace pid = some p → s.getAmenity aid = some a →
      a.id ∈ p.amenity_ids → create_place_amenity s pid aid = .ok (200, s)) ∧
    (∀ s pid aid c s', create_place_amenity s pid aid = .ok (c, s') →
      create_place_amenity s' pid aid = .ok (200, s')) := by
  constructor
  · intro s pid aid p a hp ha hmem
    exact create_place_amenity_assoc s pid aid p a hp ha hmem
  · intro s pid aid c s' h
    unfold create_place_amenity at h
    cases hp : s.getPlace pid with
    | none => rw [hp] at h; simp at h
    | some place =>
      rw [hp] at h
      dsimp only at h
      cases ha : s.getAmenity aid with
      | none => rw [ha] at h; simp at h
      | some amenity =>
        rw [ha] at h
        dsimp only at h
        by_cases hmem : amenity.id ∈ place.amenity_ids
        · rw [if_pos hmem] at h
          injection h with h
          have hc : (200, s) = ((c, s') : Nat × Storage) := h
          have hs : s = s' := congrArg Prod.snd hc
          rw [← hs]
          exact create_place_amenity_assoc s pid aid place amenity hp ha hmem
        · rw [if_neg hmem] at h
          injection h with h
          have hs : s' = s.setPlace
              { place with amenity_ids := place.amenity_ids ++ [amenity.id] } :=
            (congrArg Prod.snd h).symm
          have hpid : place.id = pid := firstBy_some_eq Place.id s.places pid
            place hp
          have hp' : s'.getPlace pid = some
              { place with amenity_ids := place.amenity_ids ++ [amenity.id] } := by
            rw [hs]
            exact firstBy_map_replace s.places pid place _ hp hpid
          have ha' : s'.getAmenity aid = some amenity := by
            rw [hs]
            exact ha
          exact create_place_amenity_assoc s' pid aid _ amenity hp' ha'
            (by simp)

/-- Storage after associating amenity "a2" with place "p2" in sDemo. -/
def sAssoc : Storage :=
  ⟨[st1, st2], [c1, c2], [u1], [a1, a2],
   [p1, ⟨"p2", "c2", "u1", "cabin", ["a1", "a2"]⟩], []⟩

/-- C8 witness: associating "a2" with "p2" answers 201 and appends the
amenity; doing it again answers 200 and leaves storage unchanged. -/
theorem C8_witness :
    create_place_amenity sDemo "p2" "a2" = .ok (201, sAssoc) ∧
    create_place_amenity sAssoc "p2" "a2" = .ok (200, sAssoc) :=
  ⟨by rfl,
   C8_place_amenity_idempotent.2 sDemo "p2" "a2" 201 sAssoc (by rfl)⟩

/-- C9 (code bug): the review-creation handler checks that `user_id` is
present but then evaluates `review_data["state_id"]`: a payload that
contains `user_id` (resolving to existing user "u1") and `text` but no
`state_id` key raises an unhandled Python KeyError instead of one of the
specified HTTP outcomes (201/400/404). -/
theorem C9_create_review_keyerror :
    sDemo.getPlace "p1" = some p1 ∧
    sDemo.getUser "u1" = some u1 ∧
    pyGet [("user_id", "u1"), ("text", "great")] "user_id" = some "u1" ∧
    pyGet [("user_id", "u1"), ("text", "great")] "state_id" = none ∧
    create_review sDemo "p1" (some [("user_id", "u1"), ("text", "great")]) =
      .error (.pyKeyError "state_id") :=
  ⟨by rfl, by rfl, by rfl, by rfl, by rfl⟩

/-- C10: every successful nested create writes the URL's parent identifier
into the created entity's foreign-key field (overriding any payload
value), and the parent was resolved, so the foreign key references an
existing entity. -/
theorem C10_nested_create_parent_fk :
    (∀ s sid body c obj, create_city s sid body = .ok (c, obj) →
      pyGet obj "state_id" = some sid ∧ (s.getState sid).isSome = true) ∧
    (∀ s cid body c obj, create_place s cid body = .ok (c, obj) →
      pyGet obj "city_id" = some cid ∧ (s.getCity cid).isSome = true) ∧
    (∀ s pid body c obj, create_review s pid body = .ok (c, obj) →
      pyGet obj "place_id" = some pid ∧ (s.getPlace pid).isSome = true) := by
  refine ⟨?_, ?_, ?_⟩
  · intro s sid body c obj h
    unfold create_city at h
    cases hg : s.getState sid with
    | none => rw [hg] at h; simp at h
    | some st =>
      rw [hg] at h
      simp only [Option.isNone_some, Bool.false_eq_true, if_false] at h
      cases body with
      | none => simp at h
      | some data =>
        dsimp only at h
        cases hn : pyGet data "name" with
        | none => rw [hn] at h; simp at h
        | some w =>
          rw [hn] at h
          simp only [Option.isNone_some, Bool.false_eq_true, if_false] at h
          injection h with h
          have hobj : obj = setattr data "state_id" sid :=
            (congrArg Prod.snd h).symm
          refine ⟨?_, by rfl⟩
          rw [hobj]
          exact pyGet_setattr_self data "state_id" sid
  · intro s cid body c obj h
    unfold create_place at h
    cases hg : s.getCity cid with
    | none => rw [hg] at h; simp at h
    | some ct =>
      rw [hg] at h
      simp only [Option.isNone_some, Bool.false_eq_true, if_false] at h
      cases body with
      | none => simp at h
      | some data =>
        dsimp only at h
        cases hu : pyGet data "user_id" with
        | none => rw [hu] at h; simp at h
        | some uid =>
          rw [hu] at h
          dsimp only at h
          cases hgu : s.getUser uid with
          | none => rw [hgu] at h; simp at h
          | some usr =>
            rw [hgu] at h
            simp only [Option.isNone_some, Bool.false_eq_true, if_false] at h
            cases hn : pyGet data "name" with
            | none => rw [hn] at h; simp at h
            | some w =>
              rw [hn] at h
              simp only [Option.isNone_some, Bool.false_eq_true,
                if_false] at h
              injection h with h
              have hobj : obj = setattr data "city_id" cid :=
                (congrArg Prod.snd h).symm
              refine ⟨?_, by rfl⟩
              rw [hobj]
              exact pyGet_setattr_self data "city_id" cid
  · intro s pid body c obj h
    unfold create_review at h
    cases hg : s.getPlace pid with
    | none => rw [hg] at h; simp at h
    | some pl =>
      rw [hg] at h
      simp only [Option.isNone_some, Bool.false_eq_true, if_false] at h
      cases body with
      | none => simp at h
      | some data =>
        dsimp only at h
        cases hu : pyGet data "user_id" with
        | none => rw [hu] at h; simp at h
        | some uid =>
          rw [hu] at h
          simp only [Option.isNone_some, Bool.false_eq_true, if_false] at h
          cases hsid : pyGet data "state_id" with
          | none => rw [hsid] at h; simp at h
          | some sid =>
            rw [hsid] at h
            dsimp only at h
            cases hgu : s.getUser sid with
            | none => rw [hgu] at h; simp at h
            | some usr =>
              rw [hgu] at h
              simp only [Option.isNone_some, Bool.false_eq_true,
                if_false] at h
              cases ht : pyGet data "text" with
              | none => rw [ht] at h; simp at h
              | some w =>
                rw [ht] at h
                simp only [Option.isNone_some, Bool.false_eq_true,
                  if_false] at h
                injection h with h
                have hobj : obj = setattr data "place_id" pid :=
                  (congrArg Prod.snd h).symm
                refine ⟨?_, by rfl⟩
                rw [hobj]
                exact pyGet_setattr_self data "place_id" pid

/-- C10 witness: concrete nested creates in sDemo; each created object
carries the URL parent identifier in its foreign-key field, overriding
the payload's value where one was supplied. -/
theorem C10_witness :
    create_city sDemo "st1" (some [("name", "Denver"), ("state_id", "zzz")]) =
      .ok (201, [("name", "Denver"), ("state_id", "st1")]) ∧
    (pyGet [("name", "Denver"), ("state_id", "st1")] "state_id" =
        some "st1" ∧
      (sDemo.getState "st1").isSome = true) ∧
    create_place sDemo "c1" (some [("user_id", "u1"), ("name", "x")]) =
      .ok (201, [("user_id", "u1"), ("name", "x"), ("city_id", "c1")]) ∧
    (pyGet [("user_id", "u1"), ("name", "x"), ("city_id", "c1")] "city_id" =
        some "c1" ∧
      (sDemo.getCity "c1").isSome = true) ∧
    create_review sDemo "p1"
        (some [("user_id", "u1"), ("state_id", "u1"), ("text", "t")]) =
      .ok (201, [("user_id", "u1"), ("state_id", "u1"), ("text", "t"),
        ("place_id", "p1")]) ∧
    (pyGet [("user_id", "u1"), ("state_id", "u1"), ("text", "t"),
        ("place_id", "p1")] "place_id" = some "p1" ∧
      (sDemo.getPlace "p1").isSome = true) :=
  ⟨by rfl,
   C10_nested_create_parent_fk.1 sDemo "st1"
     (some [("name", "Denver"), ("state_id", "zzz")]) 201
     [("name", "Denver"), ("state_id", "st1")] (by rfl),
   by rfl,
   C10_nested_create_parent_fk.2.1 sDemo "c1"
     (some [("user_id", "u1"), ("name", "x")]) 201
     [("user_id", "u1"), ("name", "x"), ("city_id", "c1")] (by rfl),
   by rfl,
   C10_nested_create_parent_fk.2.2 sDemo "p1"
     (some [("user_id", "u1"), ("state_id", "u1"), ("text", "t")]) 201
     [("user_id", "u1"), ("state_id", "u1"), ("text", "t"),
       ("place_id", "p1")] (by rfl)⟩
